import Mathlib

/-!
# Verification of the COVID-19 data-tracker pipeline (src/covid.py)

Shallow embedding of the pipeline stages of `covid.py`:
Loader (lines 34-44), Selector (line 93), Metric Deriver (lines 106, 110,
167), Aggregator (lines 97-98, 180, 224-225) and the frame behaviour of the
full dataset `df` (lines 253-255).

Numeric cells of the dataframe are modelled by `PVal`: an IEEE-754-style
value that is either NaN (pandas' missing value), a signed infinity, or an
exact rational.  Using exact rationals instead of binary floats keeps the
NaN/infinity propagation of numpy arithmetic — which is what the claims
are about — while avoiding rounding, which none of the claims depend on.
-/

/-- A pandas/numpy float cell: NaN (missing), ±∞, or a finite number
(modelled exactly as a rational). `inf true` is +∞, `inf false` is -∞. -/
inductive PVal where
  | nan : PVal
  | inf : Bool → PVal
  | num : ℚ → PVal
deriving DecidableEq, Repr

namespace PVal

/-- Is this cell missing (NaN)?  pandas `isna`. -/
def isNan : PVal → Bool
  | nan => true
  | _ => false

/-- IEEE-754 division as performed by numpy on float columns:
NaN propagates; a nonzero number divided by zero is a signed infinity;
`0/0` is NaN.  (numpy emits a RuntimeWarning, suppressed at line 11 of the
source, and produces exactly these values.) -/
def div : PVal → PVal → PVal
  | nan, _ => nan
  | _, nan => nan
  | num a, num b =>
      if b = 0 then (if a = 0 then nan else inf (0 < a)) else num (a / b)
  | num _, inf _ => num 0
  | inf s, num b => if b = 0 then inf s else inf (s = decide (0 < b))
  | inf _, inf _ => nan

/-- IEEE-754 multiplication: NaN propagates; `±∞ * 0` is NaN. -/
def mul : PVal → PVal → PVal
  | nan, _ => nan
  | _, nan => nan
  | num a, num b => num (a * b)
  | inf s, num b => if b = 0 then nan else inf (s = decide (0 < b))
  | num a, inf s => if a = 0 then nan else inf (s = decide (0 < a))
  | inf s, inf t => inf (s = t)

/-- IEEE-754 addition: NaN propagates; `+∞ + -∞` is NaN. -/
def add : PVal → PVal → PVal
  | nan, _ => nan
  | _, nan => nan
  | num a, num b => num (a + b)
  | inf s, num _ => inf s
  | num _, inf s => inf s
  | inf s, inf t => if s = t then inf s else nan

end PVal

/-- One row (Observation) of the dataset, after the Cleaner (line 84) has
normalised `date` to a date type; dates are modelled as natural numbers
(days since an epoch).  Only the columns the claims mention are kept; the
numeric columns are `PVal` because any of them may be missing in the CSV. -/
structure Row where
  location : String
  date : ℕ
  total_cases : PVal
  new_cases : PVal
  total_deaths : PVal
  new_deaths : PVal
  total_vaccinations : PVal
  people_vaccinated : PVal
  people_fully_vaccinated : PVal
  population : PVal
  iso_code : String
deriving DecidableEq, Repr

/-- A default row used only as the `getLastD` fallback; every use is on a
list proved (or computed) nonempty. -/
def dummyRow : Row :=
  ⟨"", 0, PVal.nan, PVal.nan, PVal.nan, PVal.nan, PVal.nan, PVal.nan,
   PVal.nan, PVal.nan, ""⟩

/-! ## Loader (source lines 34-44)

```
try:
    df = pd.read_csv(url)
except Exception as e:
    try:
        df = pd.read_csv("owid-covid-data.csv")
    except:
        print("❌ Failed to load data. ...")
```
The two `pd.read_csv` calls are modelled as `Except` values supplied as
inputs (success with a parsed dataset, or failure with a message).  The
result is `none` exactly when both fail, in which case the source leaves
`df` unbound and falls through. -/

def load (remote localFile : Except String (List Row)) : Option (List Row) :=
  match remote with
  | .ok d => some d
  | .error _ =>
      match localFile with
      | .ok d => some d
      | .error _ => none

/-- Models the first statement after the load block, line 51
(`print(f"Dataset shape: {df.shape}")`), which runs unconditionally: when
both loads failed, `df` was never bound and Python raises a `NameError`
there — there is no halt with a dedicated diagnostic. -/
def afterLoad (odf : Option (List Row)) : Except String ℕ :=
  match odf with
  | some d => .ok d.length
  | none => .error "NameError: name df is not defined"

/-! ## Selector and Metric Deriver (source lines 88-110) -/

/-- Line 88: the fixed allow-list of locations. -/
def countries_of_interest : List String :=
  ["World", "United States", "India", "Brazil", "United Kingdom",
   "South Africa", "Kenya", "Australia", "China", "Germany"]

/-- Line 93: `filtered_df = df[df['location'].isin(countries_of_interest)]`.
Boolean-mask indexing; row order of the surviving rows is preserved. -/
def selectorFilter (df : List Row) : List Row :=
  df.filter (fun r => countries_of_interest.contains r.location)

/-- Line 106: `(filtered_df['total_deaths'] / filtered_df['total_cases']) * 100`,
elementwise over rows with numpy float semantics. -/
def case_fatality_rate (r : Row) : PVal :=
  (r.total_deaths.div r.total_cases).mul (PVal.num 100)

/-- Line 110:
`(filtered_df['people_fully_vaccinated'] / filtered_df['population']) * 100`. -/
def vaccination_rate (r : Row) : PVal :=
  (r.people_fully_vaccinated.div r.population).mul (PVal.num 100)

/-- The derived columns the Metric Deriver assigns onto `filtered_df`
(lines 106 and 110). -/
structure Derived where
  case_fatality_rate : PVal
  vaccination_rate : PVal
deriving DecidableEq, Repr

/-- A row of `filtered_df` after the Metric Deriver: the original columns
plus the two derived ones. -/
structure FRow where
  base : Row
  derived : Derived
deriving DecidableEq, Repr

/-- Lines 106 and 110 applied to every row of the filtered frame. -/
def deriveMetrics (rows : List Row) : List FRow :=
  rows.map (fun r => ⟨r, ⟨case_fatality_rate r, vaccination_rate r⟩⟩)

/-- The two frames alive after the Metric Deriver has run. In the source,
line 93's boolean-mask indexing returns a *copy*, so the column
assignments at lines 106/110 mutate only `filtered_df`; `df` keeps its
original columns and values.  The embedding records both frames. -/
structure PipelineState where
  df : List Row
  filtered_df : List FRow
deriving Repr

/-- Lines 93-110 as one step: filter, then attach the derived columns to
the filtered copy only. -/
def runDerive (df : List Row) : PipelineState :=
  { df := df, filtered_df := deriveMetrics (selectorFilter df) }

/-- Line 254: the latest date present anywhere in `df`. -/
def maxOverallDate (df : List Row) : ℕ :=
  (df.map Row.date).foldr max 0

/-- Line 255: `latest_map_data = df[df['date'] == latest_date]` — built
from the full frame `df`, not from `filtered_df`. -/
def latest_map_data (df : List Row) : List Row :=
  df.filter (fun r => r.date = maxOverallDate df)

/-! ## Aggregator (source lines 97-98, 180, 224-225)

`df.groupby('location')` with pandas' default `sort=True` produces one
group per distinct location, keys in ascending string order. `.last()`
takes, for each column independently, the *last non-missing* value of that
column within the group, in positional row order (pandas
`DataFrameGroupBy.last` skips NA elements per column). -/

/-- Insert a string into a strictly-sorted list, keeping it sorted and
duplicate-free. -/
def insSorted (s : String) : List String → List String
  | [] => [s]
  | x :: xs =>
      if s = x then x :: xs
      else if s < x then s :: x :: xs
      else x :: insSorted s xs

/-- The distinct location keys of the frame, in ascending order — the
index produced by `df.groupby('location')` (default `sort=True`). -/
def locationsSorted (rows : List Row) : List String :=
  (rows.map Row.location).foldr insSorted []

/-- The rows of one group, in positional (frame) order. -/
def groupOf (rows : List Row) (l : String) : List Row :=
  rows.filter (fun r => r.location = l)

/-- The last non-missing entry of one column of a group (NaN when every
entry is missing) — the per-column behaviour of `GroupBy.last()`. -/
def lastNN (xs : List PVal) : PVal :=
  (xs.filter (fun v => !v.isNan)).getLastD PVal.nan

/-- One row of `latest_data` (after `reset_index()`, line 97): the group
key plus, per column, the group's last non-missing value.  The `date`
column is never missing after the Cleaner, so its last non-missing value
is the positionally last date of the group. -/
structure SnapRow where
  location : String
  date : ℕ
  total_cases : PVal
  new_cases : PVal
  total_deaths : PVal
  new_deaths : PVal
  total_vaccinations : PVal
  people_vaccinated : PVal
  people_fully_vaccinated : PVal
  population : PVal
  iso_code : String
deriving DecidableEq, Repr

/-- The `latest_data` row of one location. -/
def snapOf (rows : List Row) (l : String) : SnapRow :=
  let g := groupOf rows l
  { location := l
  , date := (g.getLastD dummyRow).date
  , total_cases := lastNN (g.map Row.total_cases)
  , new_cases := lastNN (g.map Row.new_cases)
  , total_deaths := lastNN (g.map Row.total_deaths)
  , new_deaths := lastNN (g.map Row.new_deaths)
  , total_vaccinations := lastNN (g.map Row.total_vaccinations)
  , people_vaccinated := lastNN (g.map Row.people_vaccinated)
  , people_fully_vaccinated := lastNN (g.map Row.people_fully_vaccinated)
  , population := lastNN (g.map Row.population)
  , iso_code :=
      ((g.map Row.iso_code).filter (fun s => s ≠ "")).getLastD "" }

/-- Line 97: `latest_data = df.groupby('location').last().reset_index()`. -/
def latestData (rows : List Row) : List SnapRow :=
  (locationsSorted rows).map (snapOf rows)

/-- Strict "sorts before" test for a descending sort of a metric column:
`nan` sorts last (pandas `na_position='last'`), `+∞ > ` finite ` > -∞`. -/
def PVal.before : PVal → PVal → Bool
  | nan, _ => false
  | _, nan => true
  | inf true, inf true => false
  | inf true, _ => true
  | _, inf true => false
  | num a, num b => decide (b < a)
  | num _, inf false => true
  | inf false, _ => false

/-- Stable insertion of a snapshot row into a list already sorted
descending by the key `f`. -/
def insDesc (f : SnapRow → PVal) (r : SnapRow) : List SnapRow → List SnapRow
  | [] => [r]
  | x :: xs =>
      if PVal.before (f r) (f x) then r :: x :: xs else x :: insDesc f r xs

/-- `latest_data.sort_values(col, ascending=False)` (lines 98, 180, 225).
The source's `sort_values` uses numpy's default quicksort, whose order
among *equal* keys is implementation-defined; the model fixes one
deterministic comparison sort.  Every claim proved below either has
distinct keys (where all correct sorts agree) or does not depend on tie
order. -/
def sortValuesDesc (f : SnapRow → PVal) (l : List SnapRow) : List SnapRow :=
  l.foldr (insDesc f) []

/-- Line 180: `latest_data.sort_values('total_cases', ascending=False).head(k)`
(the source uses k = 10). -/
def top_countries (rows : List Row) (k : ℕ) : List SnapRow :=
  (sortValuesDesc SnapRow.total_cases (latestData rows)).take k

/-! ## Rolling mean (source line 167)

`country_data['new_cases'].rolling(window=7).mean()` on the per-country
slice: with a fixed window of 7 and the default `min_periods` (= 7), an
output cell is NaN unless its trailing window holds 7 rows all of whose
values are non-missing, in which case it is their arithmetic mean. -/

/-- Sum of a window with IEEE propagation (any NaN makes the sum NaN;
with `min_periods = window = 7` pandas likewise yields NaN whenever the
window contains a missing value). -/
def windowMean (w : List PVal) : PVal :=
  (w.foldr PVal.add (PVal.num 0)).div (PVal.num 7)

/-- The rolling 7-mean of one column, positionally: cell `i` (0-indexed)
is NaN for `i < 6` and otherwise the mean of cells `i-6 .. i`. -/
def rollingMean7 (xs : List PVal) : List PVal :=
  (List.range xs.length).map (fun i =>
    if i < 6 then PVal.nan else windowMean ((xs.take (i + 1)).drop (i - 6)))

/-- Lines 165-167: the slice `filtered_df[filtered_df['location'] == country]`
keeps frame order; the rolling mean is taken over that slice alone, so
only the location's own rows ever enter a window. -/
def new_cases_smooth (rows : List Row) (l : String) : List PVal :=
  rollingMean7 ((groupOf rows l).map Row.new_cases)

/-- A row's 1-indexed position within its group when the group is ordered
by date (assuming distinct dates): one more than the number of group rows
with a strictly smaller date. -/
def dateRank (g : List Row) (r : Row) : ℕ :=
  1 + (g.filter (fun x => x.date < r.date)).length

/-! ## Concrete datasets used in counterexamples and witnesses -/

/-- Shorthand row constructor: location, date, total_cases, total_deaths. -/
def mkCase (l : String) (d : ℕ) (tc td : PVal) : Row :=
  { dummyRow with location := l, date := d, total_cases := tc, total_deaths := td }

/-- Shorthand row constructor: location, date, people_fully_vaccinated,
population. -/
def mkVax (l : String) (d : ℕ) (pfv pop : PVal) : Row :=
  { dummyRow with
      location := l
      date := d
      people_fully_vaccinated := pfv
      population := pop }

/-- Shorthand row constructor: location, date, new_cases. -/
def mkNew (l : String) (d : ℕ) (nc : PVal) : Row :=
  { dummyRow with location := l, date := d, new_cases := nc }

/-- The pairs (input column, snapshot column) for the eight numeric metric
columns carried through `groupby('location').last()`. -/
def metricCols : List ((Row → PVal) × (SnapRow → PVal)) :=
  [(Row.total_cases, SnapRow.total_cases),
   (Row.new_cases, SnapRow.new_cases),
   (Row.total_deaths, SnapRow.total_deaths),
   (Row.new_deaths, SnapRow.new_deaths),
   (Row.total_vaccinations, SnapRow.total_vaccinations),
   (Row.people_vaccinated, SnapRow.people_vaccinated),
   (Row.people_fully_vaccinated, SnapRow.people_fully_vaccinated),
   (Row.population, SnapRow.population)]

/-- A two-row frame for location "A": `total_cases` is present on the
older row (date 1) and missing on the newer one (date 2). -/
def rows9 : List Row :=
  [mkCase "A" 1 (PVal.num 5) PVal.nan, mkCase "A" 2 PVal.nan PVal.nan]

/-- Seven rows of location "A" whose dates arrive in strictly decreasing
order; `new_cases` is 0 except on the (positionally last) row of date 1. -/
def exS : List Row :=
  [mkNew "A" 7 (PVal.num 0), mkNew "A" 6 (PVal.num 0), mkNew "A" 5 (PVal.num 0),
   mkNew "A" 4 (PVal.num 0), mkNew "A" 3 (PVal.num 0), mkNew "A" 2 (PVal.num 0),
   mkNew "A" 1 (PVal.num 7)]

/-- The maximum date observed among a location's rows (0 when the location
is absent). -/
def maxDateOf (rows : List Row) (l : String) : ℕ :=
  ((groupOf rows l).map Row.date).foldr max 0

/-- Two rows of location "A" with dates out of order (5 then 3). -/
def ex1 : List Row :=
  [mkCase "A" 5 (PVal.num 1) PVal.nan, mkCase "A" 3 (PVal.num 2) PVal.nan]

/-- One date-sorted row for location "B". -/
def exW1 : List Row := [mkCase "B" 7 (PVal.num 5) PVal.nan]

/-- Three rows: location "A" with total_cases 100 (date 1) then 1 (date 2),
and location "B" with total_cases 50. -/
def exP1 : List Row :=
  [mkCase "A" 1 (PVal.num 100) PVal.nan, mkCase "A" 2 (PVal.num 1) PVal.nan,
   mkCase "B" 1 (PVal.num 50) PVal.nan]

/-- The same three rows with the two "A" rows swapped. -/
def exP2 : List Row :=
  [mkCase "A" 2 (PVal.num 1) PVal.nan, mkCase "A" 1 (PVal.num 100) PVal.nan,
   mkCase "B" 1 (PVal.num 50) PVal.nan]

/-- Location "A" rows interleaved with a "B" row. -/
def exC5a : List Row :=
  [mkCase "A" 1 (PVal.num 3) PVal.nan, mkCase "B" 1 (PVal.num 9) PVal.nan,
   mkCase "A" 2 (PVal.num 4) PVal.nan]

/-- The same rows de-interleaved: each location's subsequence unchanged. -/
def exC5b : List Row :=
  [mkCase "A" 1 (PVal.num 3) PVal.nan, mkCase "A" 2 (PVal.num 4) PVal.nan,
   mkCase "B" 1 (PVal.num 9) PVal.nan]

/-! ## Helper lemmas on `PVal` arithmetic -/

theorem PVal.div_nan (v : PVal) : v.div PVal.nan = PVal.nan := by
  cases v <;> rfl

theorem PVal.nan_div (v : PVal) : PVal.nan.div v = PVal.nan := by
  cases v <;> rfl

theorem PVal.nan_mul (v : PVal) : PVal.nan.mul v = PVal.nan := by
  cases v <;> rfl

/-! ## Claims C7 and C8: Loader behaviour -/

/-- Claim C7: if the remote URL fetch fails, for any reason, and the
local file path is readable and well-formed, the Loader returns the local
file's contents as the dataset; the fallback never raises. -/
theorem C7_loader_fallback (e : String) (d : List Row) :
    load (.error e) (.ok d) = some d := rfl

/-- Claim C8 (code bug): when both the remote fetch and the local-file
fallback fail, the Loader yields no dataset (`none`) and the script does
NOT halt with a `DataUnavailable` diagnostic — the inner `except` (lines
43-44) only prints, `df` stays unbound, and the next statement (line 51)
raises a bare `NameError` on the undefined `df`. -/
theorem C8_load_failure_continues :
    load (.error "network error") (.error "missing local file") = none ∧
    afterLoad (load (.error "network error") (.error "missing local file"))
      = .error "NameError: name df is not defined" :=
  ⟨rfl, rfl⟩

/-! ## Claims C2 and C3: derived rate columns -/

/-- Claim C2 counterexample: on a row with `total_cases = 0` and
`total_deaths = 5`, line 106 computes `5/0 * 100 = +∞` — a defined,
non-missing value — where the claim demands "no value" whenever
`total_cases` is 0. -/
theorem C2_counterexample :
    (mkCase "A" 1 (PVal.num 0) (PVal.num 5)).total_cases = PVal.num 0 ∧
    case_fatality_rate (mkCase "A" 1 (PVal.num 0) (PVal.num 5)) = PVal.inf true ∧
    case_fatality_rate (mkCase "A" 1 (PVal.num 0) (PVal.num 5)) ≠ PVal.nan := by
  refine ⟨rfl, ?_, by decide⟩
  norm_num [case_fatality_rate, mkCase, dummyRow, PVal.div, PVal.mul]

/-- Claim C2 (amended): `case_fatality_rate` never raises; it is NaN when
`total_cases` is missing, when `total_deaths` is missing, or when both
`total_deaths` and `total_cases` are 0; it is a signed infinity when
`total_cases` is 0 and `total_deaths` is a nonzero number; and otherwise
it equals `total_deaths / total_cases * 100` exactly. -/
theorem C2_cfr_spec (r : Row) :
    (r.total_cases = PVal.nan → case_fatality_rate r = PVal.nan) ∧
    (r.total_deaths = PVal.nan → case_fatality_rate r = PVal.nan) ∧
    (r.total_cases = PVal.num 0 → r.total_deaths = PVal.num 0 →
      case_fatality_rate r = PVal.nan) ∧
    (∀ d : ℚ, r.total_cases = PVal.num 0 → r.total_deaths = PVal.num d → d ≠ 0 →
      case_fatality_rate r = PVal.inf (decide (0 < d))) ∧
    (∀ c d : ℚ, r.total_cases = PVal.num c → c ≠ 0 → r.total_deaths = PVal.num d →
      case_fatality_rate r = PVal.num (d / c * 100)) := by
  refine ⟨?_, ?_, ?_, ?_, ?_⟩
  · intro h
    rw [case_fatality_rate, h, PVal.div_nan, PVal.nan_mul]
  · intro h
    rw [case_fatality_rate, h, PVal.nan_div, PVal.nan_mul]
  · intro hc hd
    rw [case_fatality_rate, hc, hd]
    simp [PVal.div, PVal.mul]
  · intro d hc hd hd0
    rw [case_fatality_rate, hc, hd]
    rcases hs : decide ((0:ℚ) < d) with _ | _ <;>
      norm_num [PVal.div, PVal.mul, hd0, hs]
  · intro c d hc hc0 hd
    rw [case_fatality_rate, hc, hd]
    simp [PVal.div, PVal.mul, hc0]

/-- Witness for `C2_cfr_spec` at a concrete row: `total_cases = 200` and
`total_deaths = 20` give a CFR of 10%. -/
theorem C2_cfr_spec_witness :
    case_fatality_rate (mkCase "A" 1 (PVal.num 200) (PVal.num 20)) =
      PVal.num 10 := by
  have h := (C2_cfr_spec (mkCase "A" 1 (PVal.num 200) (PVal.num 20))).2.2.2.2
      200 20 rfl (by norm_num) rfl
  rw [h]
  norm_num

/-- Claim C3 counterexample: on a row with `population = 0` and
`people_fully_vaccinated = 5`, line 110 computes `5/0 * 100 = +∞` — a
defined, non-missing value — where the claim demands "no value" whenever
`population` is 0. -/
theorem C3_counterexample :
    (mkVax "A" 1 (PVal.num 5) (PVal.num 0)).population = PVal.num 0 ∧
    vaccination_rate (mkVax "A" 1 (PVal.num 5) (PVal.num 0)) = PVal.inf true ∧
    vaccination_rate (mkVax "A" 1 (PVal.num 5) (PVal.num 0)) ≠ PVal.nan := by
  refine ⟨rfl, ?_, by decide⟩
  norm_num [vaccination_rate, mkVax, dummyRow, PVal.div, PVal.mul]

/-- Claim C3 (amended): `vaccination_rate` never raises; it is NaN when
`population` is missing, when `people_fully_vaccinated` is missing, or
when both are 0; it is a signed infinity when `population` is 0 and
`people_fully_vaccinated` is a nonzero number; and otherwise it equals
`people_fully_vaccinated / population * 100` exactly. -/
theorem C3_vax_spec (r : Row) :
    (r.population = PVal.nan → vaccination_rate r = PVal.nan) ∧
    (r.people_fully_vaccinated = PVal.nan → vaccination_rate r = PVal.nan) ∧
    (r.population = PVal.num 0 → r.people_fully_vaccinated = PVal.num 0 →
      vaccination_rate r = PVal.nan) ∧
    (∀ v : ℚ, r.population = PVal.num 0 → r.people_fully_vaccinated = PVal.num v →
      v ≠ 0 → vaccination_rate r = PVal.inf (decide (0 < v))) ∧
    (∀ p v : ℚ, r.population = PVal.num p → p ≠ 0 →
      r.people_fully_vaccinated = PVal.num v →
      vaccination_rate r = PVal.num (v / p * 100)) := by
  refine ⟨?_, ?_, ?_, ?_, ?_⟩
  · intro h
    rw [vaccination_rate, h, PVal.div_nan, PVal.nan_mul]
  · intro h
    rw [vaccination_rate, h, PVal.nan_div, PVal.nan_mul]
  · intro hp hv
    rw [vaccination_rate, hp, hv]
    simp [PVal.div, PVal.mul]
  · intro v hp hv hv0
    rw [vaccination_rate, hp, hv]
    rcases hs : decide ((0:ℚ) < v) with _ | _ <;>
      norm_num [PVal.div, PVal.mul, hv0, hs]
  · intro p v hp hp0 hv
    rw [vaccination_rate, hp, hv]
    simp [PVal.div, PVal.mul, hp0]

/-- Witness for `C3_vax_spec` at a concrete row: `population = 50` and
`people_fully_vaccinated = 25` give a vaccination rate of 50%. -/
theorem C3_vax_spec_witness :
    vaccination_rate (mkVax "A" 1 (PVal.num 25) (PVal.num 50)) =
      PVal.num 50 := by
  have h := (C3_vax_spec (mkVax "A" 1 (PVal.num 25) (PVal.num 50))).2.2.2.2
      50 25 rfl (by norm_num) rfl
  rw [h]
  norm_num

/-! ## Claim C10: the derivation step leaves `df` unchanged -/

/-- Claim C10: the Metric Deriver attaches `case_fatality_rate` and
`vaccination_rate` only to the filtered frame (line 93's boolean-mask
indexing returns a copy, so the column assignments of lines 106/110 do
not alias `df`); the full frame `df` keeps its original columns and
values, and `latest_map_data` (line 255), the input of the choropleth
section, is drawn from those original rows. -/
theorem C10_frame (df : List Row) :
    (runDerive df).df = df ∧
    ((runDerive df).filtered_df.map FRow.base = selectorFilter df) ∧
    (∀ r ∈ latest_map_data (runDerive df).df, r ∈ df) := by
  refine ⟨rfl, ?_, ?_⟩
  · simp only [runDerive, deriveMetrics, List.map_map]
    exact List.map_id _ ▸ rfl
  · intro r hr
    exact List.mem_of_mem_filter hr

/-- Witness for `C10_frame` on a concrete one-row frame: the single
`latest_map_data` row is one of the original rows. -/
theorem C10_frame_witness :
    mkCase "World" 3 PVal.nan PVal.nan ∈ [mkCase "World" 3 PVal.nan PVal.nan] :=
  (C10_frame [mkCase "World" 3 PVal.nan PVal.nan]).2.2
    (mkCase "World" 3 PVal.nan PVal.nan) (by decide)

/-! ## Claim C9: per-column behaviour of `groupby('location').last()` -/

theorem lastNN_all_nan (xs : List PVal) (h : ∀ v ∈ xs, v.isNan = true) :
    lastNN xs = PVal.nan := by
  rw [lastNN]
  have hnil : xs.filter (fun v => !v.isNan) = [] := by
    rw [List.filter_eq_nil_iff]
    intro v hv
    simp [h v hv]
  rw [hnil]
  rfl

theorem lastNN_split (xs ys zs : List PVal) (v : PVal) (hx : xs = ys ++ v :: zs)
    (hv : v.isNan = false) (hz : ∀ u ∈ zs, u.isNan = true) :
    lastNN xs = v := by
  subst hx
  have hzs : zs.filter (fun u => !u.isNan) = [] := by
    rw [List.filter_eq_nil_iff]
    intro u hu
    simp [hz u hu]
  rw [lastNN, List.filter_append, List.filter_cons, hzs]
  simp only [hv, Bool.not_false, if_pos]
  exact List.getLastD_concat _ _ _

/-- Claim C9: each numeric column of a location's `latest_data` row
independently equals the last non-missing value of that column among the
location's rows (`GroupBy.last` skips NaN per column): if every value of
the column is missing the snapshot holds NaN, and whenever the column
splits as `ys ++ v :: zs` with `v` non-missing and everything after it
missing, the snapshot holds `v`.  Hence the snapshot row may combine
values taken from rows with different dates and need not equal any single
input row. -/
theorem C9_groupby_last (rows : List Row) (l : String)
    (p : (Row → PVal) × (SnapRow → PVal)) (hp : p ∈ metricCols) :
    (p.2 (snapOf rows l) = lastNN ((groupOf rows l).map p.1)) ∧
    ((∀ v ∈ (groupOf rows l).map p.1, v.isNan = true) →
      p.2 (snapOf rows l) = PVal.nan) ∧
    (∀ ys v zs, (groupOf rows l).map p.1 = ys ++ v :: zs → v.isNan = false →
      (∀ u ∈ zs, u.isNan = true) → p.2 (snapOf rows l) = v) := by
  have h1 : p.2 (snapOf rows l) = lastNN ((groupOf rows l).map p.1) := by
    simp only [metricCols, List.mem_cons, List.not_mem_nil, or_false] at hp
    rcases hp with rfl | rfl | rfl | rfl | rfl | rfl | rfl | rfl <;> rfl
  refine ⟨h1, ?_, ?_⟩
  · intro h
    rw [h1]
    exact lastNN_all_nan _ h
  · intro ys v zs hsplit hv hz
    rw [h1]
    exact lastNN_split _ ys zs v hsplit hv hz

/-- Witness for `C9_groupby_last`: on `rows9`, the snapshot's
`total_cases` is 5, taken from the date-1 row even though the positional
last row (date 2) has it missing. -/
theorem C9_groupby_last_witness :
    SnapRow.total_cases (snapOf rows9 "A") = PVal.num 5 :=
  (C9_groupby_last rows9 "A" (Row.total_cases, SnapRow.total_cases)
      (by simp [metricCols])).2.2 [] (PVal.num 5) [PVal.nan]
      (by decide) rfl (by decide)

/-! ## Claim C4: the 7-day rolling mean -/

theorem rollingMean7_getD (xs : List PVal) (i : ℕ) (hi : i < xs.length) :
    (rollingMean7 xs).getD i PVal.nan =
      if i < 6 then PVal.nan else windowMean ((xs.take (i + 1)).drop (i - 6)) := by
  rw [rollingMean7, List.getD_eq_getElem?_getD, List.getElem?_map,
    List.getElem?_range hi]
  rfl

theorem addFold_map_num (q : List ℚ) :
    (q.map PVal.num).foldr PVal.add (PVal.num 0) =
      PVal.num (q.foldr (· + ·) 0) := by
  induction q with
  | nil => rfl
  | cons a t ih => simp [List.foldr, PVal.add, ih]

theorem windowMean_map_num (q : List ℚ) :
    windowMean (q.map PVal.num) = PVal.num (q.foldr (· + ·) 0 / 7) := by
  rw [windowMean, addFold_map_num]
  norm_num [PVal.div]

/-- Claim C4 (amended): the smoothed series of a location is computed over
that location's rows in their positional (input) order — which is date
order exactly when the location's rows arrive date-sorted.  Cell `i`
(0-indexed) is NaN for the first six rows; from the 7th row on it covers
the trailing window of 7 cells, every value in the window comes from a row
of the same location, and when the window's values are the numbers `q` the
cell equals their arithmetic mean `(sum q) / 7`. -/
theorem C4_smooth_spec (rows : List Row) (l : String) (i : ℕ)
    (hi : i < ((groupOf rows l).map Row.new_cases).length) :
    ((new_cases_smooth rows l).getD i PVal.nan =
      if i < 6 then PVal.nan
      else windowMean ((((groupOf rows l).map Row.new_cases).take (i + 1)).drop (i - 6))) ∧
    (6 ≤ i →
      ((((groupOf rows l).map Row.new_cases).take (i + 1)).drop (i - 6)).length = 7) ∧
    (∀ v ∈ (((groupOf rows l).map Row.new_cases).take (i + 1)).drop (i - 6),
      ∃ r, r ∈ rows ∧ r.location = l ∧ v = r.new_cases) ∧
    (∀ q : List ℚ,
      (((groupOf rows l).map Row.new_cases).take (i + 1)).drop (i - 6) = q.map PVal.num →
      6 ≤ i →
      (new_cases_smooth rows l).getD i PVal.nan = PVal.num (q.foldr (· + ·) 0 / 7)) := by
  refine ⟨rollingMean7_getD _ i hi, ?_, ?_, ?_⟩
  · intro h6
    rw [List.length_drop, List.length_take]
    omega
  · intro v hv
    have hv1 : v ∈ (groupOf rows l).map Row.new_cases :=
      List.mem_of_mem_take (List.mem_of_mem_drop hv)
    rcases List.mem_map.mp hv1 with ⟨r, hr, hrv⟩
    rcases List.mem_filter.mp hr with ⟨hr1, hr2⟩
    exact ⟨r, hr1, by simpa using hr2, hrv.symm⟩
  · intro q hq h6
    rw [new_cases_smooth, rollingMean7_getD _ i hi, if_neg (by omega), hq,
      windowMean_map_num]

/-- Claim C4 counterexample: in `exS`, the row with date 1 sits at
date-order position 1 (fewer than 7), so the claim requires its smoothed
value to be undefined; but the rolling window runs in positional order
(line 167), the row is positionally 7th, and its smoothed value is the
defined number `(0+0+0+0+0+0+7)/7 = 1`. -/
theorem C4_counterexample :
    dateRank (groupOf exS "A") (mkNew "A" 1 (PVal.num 7)) = 1 ∧ (1:ℕ) < 7 ∧
    ((groupOf exS "A").zip (new_cases_smooth exS "A")).filter
      (fun p => p.1.date = 1) = [(mkNew "A" 1 (PVal.num 7), PVal.num 1)] ∧
    PVal.num 1 ≠ PVal.nan := by
  refine ⟨by decide, by decide, ?_, by decide⟩
  norm_num [groupOf, new_cases_smooth, rollingMean7, windowMean, exS, mkNew,
    dummyRow, List.range_succ, PVal.add, PVal.div, dateRank]

/-- Witness for `C4_smooth_spec`: on `exS`, position 6 (0-indexed; the 7th
row) gets the mean of the window `[0,0,0,0,0,0,7]`, namely 1. -/
theorem C4_smooth_spec_witness :
    (new_cases_smooth exS "A").getD 6 PVal.nan =
      PVal.num (([0, 0, 0, 0, 0, 0, 7] : List ℚ).foldr (· + ·) 0 / 7) :=
  (C4_smooth_spec exS "A" 6 (by decide)).2.2.2
    [0, 0, 0, 0, 0, 0, 7] (by decide) (by norm_num)

/-! ## Claim C1: the latest snapshot -/

theorem mem_insSorted (a s : String) (l : List String) :
    a ∈ insSorted s l ↔ a = s ∨ a ∈ l := by
  induction l with
  | nil => simp [insSorted]
  | cons x xs ih =>
    rw [insSorted]
    split
    · next h =>
        subst h
        simp only [List.mem_cons]
        tauto
    · split
      · simp only [List.mem_cons]
      · simp only [List.mem_cons, ih]
        tauto

theorem sorted_insSorted (s : String) (l : List String)
    (hl : List.Sorted (· < ·) l) : List.Sorted (· < ·) (insSorted s l) := by
  induction l with
  | nil => simp [insSorted]
  | cons x xs ih =>
    rw [List.sorted_cons] at hl
    by_cases h1 : s = x
    · subst h1
      rw [insSorted, if_pos rfl, List.sorted_cons]
      exact hl
    · by_cases h2 : s < x
      · rw [insSorted, if_neg h1, if_pos h2, List.sorted_cons]
        refine ⟨?_, List.sorted_cons.mpr hl⟩
        intro b hb
        rcases List.mem_cons.mp hb with rfl | hbx
        · exact h2
        · exact lt_trans h2 (hl.1 b hbx)
      · have hxs : x < s := lt_of_le_of_ne (not_lt.mp h2) (Ne.symm h1)
        rw [insSorted, if_neg h1, if_neg h2, List.sorted_cons]
        refine ⟨?_, ih hl.2⟩
        intro b hb
        rcases (mem_insSorted b s xs).mp hb with rfl | hbxs
        · exact hxs
        · exact hl.1 b hbxs

theorem sorted_foldr_insSorted (ls : List String) :
    List.Sorted (· < ·) (ls.foldr insSorted []) := by
  induction ls with
  | nil => simp
  | cons x xs ih => exact sorted_insSorted x _ ih

theorem mem_foldr_insSorted (ls : List String) (a : String) :
    a ∈ ls.foldr insSorted [] ↔ a ∈ ls := by
  induction ls with
  | nil => simp
  | cons x xs ih =>
    rw [List.foldr_cons, mem_insSorted, ih, List.mem_cons]

theorem sorted_locationsSorted (rows : List Row) :
    List.Sorted (· < ·) (locationsSorted rows) :=
  sorted_foldr_insSorted _

theorem mem_locationsSorted (rows : List Row) (l : String) :
    l ∈ locationsSorted rows ↔ l ∈ rows.map Row.location :=
  mem_foldr_insSorted _ l

theorem getLastD_date_eq_max (g : List Row) :
    List.Sorted (· ≤ ·) (g.map Row.date) → g ≠ [] →
    ∀ d : Row, (g.getLastD d).date = (g.map Row.date).foldr max 0 := by
  induction g with
  | nil => intro _ h; cases h rfl
  | cons r t ih =>
    intro hs _ d
    cases t with
    | nil => simp [List.getLastD]
    | cons r2 t2 =>
      rw [List.map_cons, List.sorted_cons] at hs
      have hle : r.date ≤ r2.date := hs.1 r2.date (by simp)
      have h1 : ((r2 :: t2).getLastD r).date = ((r2 :: t2).map Row.date).foldr max 0 :=
        ih hs.2 (by simp) r
      have h2 : r.date ≤ ((r2 :: t2).map Row.date).foldr max 0 := by
        refine le_trans hle ?_
        rw [List.map_cons, List.foldr_cons]
        exact le_max_left _ _
      calc ((r :: r2 :: t2).getLastD d).date
          = ((r2 :: t2).getLastD r).date := by rw [List.getLastD_cons]
        _ = ((r2 :: t2).map Row.date).foldr max 0 := h1
        _ = max r.date (((r2 :: t2).map Row.date).foldr max 0) := by omega
        _ = ((r :: r2 :: t2).map Row.date).foldr max 0 := rfl

theorem mem_map_location_iff (rows : List Row) (l : String) :
    l ∈ rows.map Row.location ↔ groupOf rows l ≠ [] := by
  rw [groupOf]
  constructor
  · intro hl
    rcases List.mem_map.mp hl with ⟨r, hr, rfl⟩
    exact List.ne_nil_of_mem (List.mem_filter.mpr ⟨hr, by simp⟩)
  · intro hne
    rcases List.exists_mem_of_ne_nil _ hne with ⟨r, hr⟩
    rcases List.mem_filter.mp hr with ⟨hr1, hr2⟩
    exact List.mem_map.mpr ⟨r, hr1, by simpa using hr2⟩

/-- Claim C1 (amended): for every input dataset — sorted or not —
`latest_data` contains exactly one row per distinct input location (one
row per location, no duplicates, no other locations), and its date is the
date of the positionally last row of the location's group.  When a
location's rows arrive in nondecreasing date order (the precondition the
spec itself flags as implicit), that positionally last date is the
location's maximum date. -/
theorem C1_latest_snapshot (rows : List Row) :
    ((latestData rows).map SnapRow.location).Nodup ∧
    (∀ l, l ∈ (latestData rows).map SnapRow.location ↔ l ∈ rows.map Row.location) ∧
    (∀ s ∈ latestData rows,
      s.date = ((groupOf rows s.location).getLastD dummyRow).date) ∧
    (∀ s ∈ latestData rows,
      List.Sorted (· ≤ ·) ((groupOf rows s.location).map Row.date) →
      s.date = maxDateOf rows s.location) := by
  have hmapl : (latestData rows).map SnapRow.location = locationsSorted rows := by
    rw [latestData, List.map_map]
    have hcomp : (SnapRow.location ∘ snapOf rows) = fun l => l := by
      funext l
      rfl
    rw [hcomp]
    simp
  refine ⟨?_, ?_, ?_, ?_⟩
  · rw [hmapl]
    exact (sorted_locationsSorted rows).nodup
  · intro l
    rw [hmapl]
    exact mem_locationsSorted rows l
  · intro s hs
    rcases List.mem_map.mp hs with ⟨l, hl, rfl⟩
    rfl
  · intro s hs hsorted
    rcases List.mem_map.mp hs with ⟨l, hl, rfl⟩
    have hne : groupOf rows l ≠ [] :=
      (mem_map_location_iff rows l).mp ((mem_locationsSorted rows l).mp hl)
    have hdate : (snapOf rows l).date = ((groupOf rows l).getLastD dummyRow).date := rfl
    have hloc : (snapOf rows l).location = l := rfl
    rw [hdate, hloc, maxDateOf]
    exact getLastD_date_eq_max (groupOf rows l) (hloc ▸ hsorted) hne dummyRow

/-- Claim C1 counterexample: on `ex1`, whose "A" rows carry dates 5 then 3,
`groupby('location').last()` keeps the positionally last date 3, not the
maximum 5 — so the snapshot date is not the maximum observed date. -/
theorem C1_counterexample :
    ¬ (∀ s ∈ latestData ex1, s.date = maxDateOf ex1 s.location) := by
  intro h
  have hm : snapOf ex1 "A" ∈ latestData ex1 := by
    rw [show latestData ex1 = [snapOf ex1 "A"] from rfl]
    exact List.mem_singleton.mpr rfl
  have h2 := h _ hm
  rw [show (snapOf ex1 "A").date = 3 from rfl,
    show maxDateOf ex1 (snapOf ex1 "A").location = 5 from rfl] at h2
  exact absurd h2 (by decide)

/-- Witness for `C1_latest_snapshot` on the date-sorted frame `exW1`:
the snapshot locations are duplicate-free and the "B" snapshot's date is
the maximum date 7. -/
theorem C1_latest_snapshot_witness :
    ((latestData exW1).map SnapRow.location).Nodup ∧
    (snapOf exW1 "B").date = maxDateOf exW1 "B" := by
  have h := C1_latest_snapshot exW1
  have hm : snapOf exW1 "B" ∈ latestData exW1 := by
    rw [show latestData exW1 = [snapOf exW1 "B"] from rfl]
    exact List.mem_singleton.mpr rfl
  exact ⟨h.1, h.2.2.2 _ hm (by decide)⟩

/-! ## Claim C5: dependence of the aggregation on row order -/

theorem snapOf_congr (rows1 rows2 : List Row) (l : String)
    (h : groupOf rows1 l = groupOf rows2 l) : snapOf rows1 l = snapOf rows2 l := by
  simp only [snapOf]
  rw [h]

theorem sorted_lt_ext (l1 l2 : List String) (h1 : List.Sorted (· < ·) l1)
    (h2 : List.Sorted (· < ·) l2) (hmem : ∀ a, a ∈ l1 ↔ a ∈ l2) : l1 = l2 := by
  induction l1 generalizing l2 with
  | nil =>
    cases l2 with
    | nil => rfl
    | cons y ys => exact absurd ((hmem y).mpr (by simp)) (by simp)
  | cons x xs ih =>
    cases l2 with
    | nil => exact absurd ((hmem x).mp (by simp)) (by simp)
    | cons y ys =>
      rw [List.sorted_cons] at h1 h2
      have hxy : x = y := by
        rcases List.mem_cons.mp ((hmem x).mp (by simp)) with h | hx
        · exact h
        · rcases List.mem_cons.mp ((hmem y).mpr (by simp)) with h' | hy
          · exact h'.symm
          · exact absurd (lt_trans (h2.1 x hx) (h1.1 y hy)) (lt_irrefl y)
      subst hxy
      congr 1
      apply ih ys h1.2 h2.2
      intro a
      constructor
      · intro ha
        rcases List.mem_cons.mp ((hmem a).mp (List.mem_cons_of_mem _ ha)) with rfl | h
        · exact absurd (h1.1 a ha) (lt_irrefl a)
        · exact h
      · intro ha
        rcases List.mem_cons.mp ((hmem a).mpr (List.mem_cons_of_mem _ ha)) with rfl | h
        · exact absurd (h2.1 a ha) (lt_irrefl a)
        · exact h

/-- Claim C5 (amended): the aggregation is invariant under exactly those
reorderings that preserve each location's row subsequence (for example,
re-interleavings of different locations): whenever every location's group
is the same list in both frames, `latest_data` and the top-K by
`total_cases` coincide — in particular the K locations are the same.  For
general permutations the claim fails, because `groupby().last()` depends
on each group's row order; see the counterexample. -/
theorem C5_top_countries_congr (rows1 rows2 : List Row) (k : ℕ)
    (h : ∀ l, groupOf rows1 l = groupOf rows2 l) :
    top_countries rows1 k = top_countries rows2 k := by
  have hloc : locationsSorted rows1 = locationsSorted rows2 := by
    apply sorted_lt_ext _ _ (sorted_locationsSorted rows1) (sorted_locationsSorted rows2)
    intro a
    rw [mem_locationsSorted, mem_locationsSorted, mem_map_location_iff,
      mem_map_location_iff, h a]
  have hld : latestData rows1 = latestData rows2 := by
    rw [latestData, latestData, hloc]
    exact List.map_congr_left (fun l _ => snapOf_congr rows1 rows2 l (h l))
  rw [top_countries, top_countries, hld]

/-- Claim C5 counterexample: `exP2` is a permutation of `exP1`, yet the
top-1 by `total_cases` is {"B"} for `exP1` (A's last value is 1) and {"A"}
for `exP2` (A's last value is 100): the aggregation is not independent of
input row order. -/
theorem C5_counterexample :
    List.Perm exP2 exP1 ∧
    (top_countries exP1 1).map SnapRow.location = ["B"] ∧
    (top_countries exP2 1).map SnapRow.location = ["A"] := by
  refine ⟨List.Perm.swap _ _ _, ?_, ?_⟩
  · simp [top_countries, sortValuesDesc, latestData, locationsSorted,
      insSorted, snapOf, groupOf, lastNN, insDesc, PVal.before, exP1,
      mkCase, dummyRow, PVal.isNan]
  · simp [top_countries, sortValuesDesc, latestData, locationsSorted,
      insSorted, snapOf, groupOf, lastNN, insDesc, PVal.before, exP2,
      mkCase, dummyRow, PVal.isNan]
    norm_num

/-- Witness for `C5_top_countries_congr`: the two interleavings agree on
every location's subsequence, so the top-2 lists coincide. -/
theorem C5_top_countries_congr_witness :
    top_countries exC5a 2 = top_countries exC5b 2 :=
  C5_top_countries_congr exC5a exC5b 2 (by
    intro l
    by_cases hA : ("A" : String) = l
    · by_cases hB : ("B" : String) = l
      · exact absurd (hA.trans hB.symm) (by decide)
      · simp_all [groupOf, exC5a, exC5b, mkCase, dummyRow, List.filter_cons]
    · by_cases hB : ("B" : String) = l <;>
        simp_all [groupOf, exC5a, exC5b, mkCase, dummyRow, List.filter_cons])

/-- Witness for `C7_loader_fallback` at a concrete failure and a concrete
local dataset. -/
theorem C7_loader_fallback_witness :
    load (.error "connection refused") (.ok [dummyRow]) = some [dummyRow] :=
  C7_loader_fallback "connection refused" [dummyRow]
